import Mathlib

/-!
Shallow embedding of `src/app.py`, a Streamlit demo that drives a bounded
tool-calling loop against a chat-completion endpoint with two mock tools
(`get_heritage_text_record` and `generate_visualization_data`).

Modelling choices, aligned with the source:
* JSON payloads are modelled by the inductive `Json`; the Python tools return
  `json.dumps` of such a value and the orchestrator immediately `json.loads`s
  it back, so the embedding passes the structured value around and a separate
  `Json.dumps` models the serialized form.
* Python `dict`s (decoded tool-call arguments, the tool-result accumulator)
  are association lists with first-match lookup and replace-or-append update
  (`dGet`/`dSet`), which matches `dict` semantics for duplicate-free inputs.
* The chat model is an oracle `Nat → ModelResponse` giving the response to the
  k-th request of the run (the run performs at most 4 requests, sequentially,
  so a trace indexed by request count captures every possible model behavior).
* A Python exception escaping the loop (`KeyError` on an unknown tool name, or
  `TypeError` from `**kwargs` not matching the callee's signature) is modelled
  by `Option`: the dispatcher returns `none` and the run result has
  `text = none` (the run terminated without returning).
* `time.sleep`, `st.info`/`st.warning` display calls and the OpenAI client
  setup are side effects with no influence on the returned data; they are not
  modelled.
-/

/-- Minimal JSON value model: the payloads built in `app.py` use only strings,
integers, arrays and objects. -/
inductive Json where
  | str (s : String)
  | num (n : Int)
  | arr (elems : List Json)
  | obj (fields : List (String × Json))
deriving Repr

/-- Python `needle in haystack` for strings: substring containment, tested on
the character lists. -/
def pyIn (needle haystack : String) : Bool :=
  decide (needle.data <:+: haystack.data)

/-- First-match lookup in an association list, as Python `dict` access /
`dict.get` (a decoded JSON object has no duplicate keys). -/
def dGet {α : Type} (k : String) : List (String × α) → Option α
  | [] => none
  | (k', v) :: rest => if k' = k then some v else dGet k rest

/-- Python `d[k] = v` on a `dict`: replace the value in place if the key is
present (decoded JSON objects and the accumulator are duplicate-free, so
replacing the first occurrence is the `dict` behavior), otherwise append the
new binding at the end, as insertion order dictates. -/
def dSet {α : Type} (k : String) (v : α) : List (String × α) → List (String × α)
  | [] => [(k, v)]
  | (k', v') :: rest => if k' = k then (k, v) :: rest else (k', v') :: dSet k v rest

/-- The not-found message built by `get_heritage_text_record`'s error branch
(the f-string on line 54 of `app.py`). -/
def notFoundMsg (structure_name : String) : String :=
  "'" ++ structure_name ++ "'에 대한 상세 기록을 찾을 수 없습니다."

/-- The hard-coded success text record of `get_heritage_text_record`. -/
def hongGildongRecord : String :=
  "홍길동 작가는 1920년대 초 일본에서 유학했으며, 당시 파리 화단의 추상적 경향에 영향을 받았으나, 귀국 후 조선미술전람회에서 '조선의 풍경'을 테마로 한 실험적인 단색화(Monochrome)를 주로 선보였다. 초기에는 채색화도 병행했으나, 후기에는 캔버스에 마포를 사용한 물성 위주 작업에 집중했다."

/-- Research tool (`app.py` lines 40-54): matches `"홍길동" in structure_name`
and returns the canned success payload, otherwise an error payload whose
`text_record` is the not-found message. -/
def get_heritage_text_record (location structure_name : String) : Json :=
  -- `location` is accepted but never used by the lookup, as in the source.
  let _ := location
  if pyIn "홍길동" structure_name then
    Json.obj [("status", Json.str "success"),
              ("search_term", Json.str structure_name),
              ("text_record", Json.str hongGildongRecord),
              ("exhibition_count", Json.num 5)]
  else
    Json.obj [("status", Json.str "error"),
              ("text_record", Json.str (notFoundMsg structure_name))]

/-- Visualization tool (`app.py` lines 56-75): requires `"단색화" in data` and
`visualization_type == "timeline"`; on match returns the canned timeline
payload, otherwise an error payload. -/
def generate_visualization_data (data visualization_type : String) : Json :=
  if pyIn "단색화" data && (visualization_type == "timeline") then
    Json.obj [("status", Json.str "success"),
              ("visualization_type", Json.str "연표"),
              ("data", Json.arr [
                Json.obj [("year", Json.num 1920), ("event", Json.str "일본 유학 및 서양 추상화 경향 접촉")],
                Json.obj [("year", Json.num 1925), ("event", Json.str "단색화 기법 실험 시작")],
                Json.obj [("year", Json.num 1930), ("event", Json.str "조선미술전람회에서 마포 질감 위주 작품 발표")],
                Json.obj [("year", Json.num 1935), ("event", Json.str "초기 채색화 활동 중단")]])]
  else
    Json.obj [("status", Json.str "error"),
              ("message", Json.str "요청된 시각화 데이터를 생성할 수 없습니다.")]

/-- Reads the string stored under key `k` of a JSON object, if any. -/
def objGetStr (k : String) : Json → Option String
  | Json.obj fields =>
      match dGet k fields with
      | some (Json.str s) => some s
      | _ => none
  | _ => none

/-- Status field of a tool payload. -/
def statusOf (j : Json) : Option String := objGetStr "status" j

/-- Text-record field of a research payload. -/
def textRecordOf (j : Json) : Option String := objGetStr "text_record" j

/-- Year values of a visualization payload's `data` array (empty when the
payload has no such array). -/
def yearsOf (j : Json) : List Int :=
  match j with
  | Json.obj fields =>
      match dGet "data" fields with
      | some (Json.arr elems) =>
          elems.filterMap (fun e =>
            match e with
            | Json.obj efields =>
                match dGet "year" efields with
                | some (Json.num n) => some n
                | _ => none
            | _ => none)
      | _ => []
  | _ => []

/-- True when an optional string field is present and non-empty. -/
def optStrNonEmpty : Option String → Bool
  | some t => t.length != 0
  | none => false

/-- Lowercase hexadecimal digit. -/
def hexDigit (n : Nat) : Char :=
  if n < 10 then Char.ofNat (48 + n) else Char.ofNat (87 + n)

/-- Four lowercase hexadecimal digits, as in a JSON `\uXXXX` escape. -/
def hex4 (n : Nat) : String :=
  String.mk [hexDigit (n / 4096 % 16), hexDigit (n / 256 % 16),
             hexDigit (n / 16 % 16), hexDigit (n % 16)]

/-- Escape one character the way `json.dumps` does with its default
`ensure_ascii=True`: short escapes for the common control characters, `\uXXXX`
for other controls and all non-ASCII characters (surrogate pairs beyond the
basic multilingual plane). -/
def escChar (c : Char) : String :=
  if c = Char.ofNat 34 then "\\\""
  else if c = Char.ofNat 92 then "\\\\"
  else if c = Char.ofNat 8 then "\\b"
  else if c = Char.ofNat 9 then "\\t"
  else if c = Char.ofNat 10 then "\\n"
  else if c = Char.ofNat 12 then "\\f"
  else if c = Char.ofNat 13 then "\\r"
  else if c.toNat < 32 then "\\u" ++ hex4 c.toNat
  else if c.toNat < 128 then String.singleton c
  else if c.toNat < 65536 then "\\u" ++ hex4 c.toNat
  else "\\u" ++ hex4 (55296 + (c.toNat - 65536) / 1024)
       ++ "\\u" ++ hex4 (56320 + (c.toNat - 65536) % 1024)

/-- Escape a string body for JSON output. -/
def escString (s : String) : String :=
  String.join (s.data.map escChar)

mutual

/-- Serialized form of a JSON value, as produced by `json.dumps` with default
options (separators `", "` and `": "`, ASCII-escaped strings). -/
def Json.dumps : Json → String
  | Json.str s => "\"" ++ escString s ++ "\""
  | Json.num n => toString n
  | Json.arr elems => "[" ++ Json.dumpsItems elems ++ "]"
  | Json.obj fields => "\x7b" ++ Json.dumpsFields fields ++ "\x7d"

/-- Comma-separated serialization of array elements. -/
def Json.dumpsItems : List Json → String
  | [] => ""
  | [x] => Json.dumps x
  | x :: y :: rest => Json.dumps x ++ ", " ++ Json.dumpsItems (y :: rest)

/-- Comma-separated serialization of object fields. -/
def Json.dumpsFields : List (String × Json) → String
  | [] => ""
  | [(k, v)] => "\"" ++ escString k ++ "\": " ++ Json.dumps v
  | (k, v) :: f :: rest =>
      "\"" ++ escString k ++ "\": " ++ Json.dumps v ++ ", " ++ Json.dumpsFields (f :: rest)

end

/-- Tool invocation request produced by the model, with the argument object
already decoded from its JSON string. Only string-valued arguments are
modelled: the orchestrator overwrites every argument it actually reads with a
string before dispatch, and never inspects the values of other keys (their
mere presence makes the `**kwargs` call raise). -/
structure ToolCall where
  id : String
  name : String
  args : List (String × String)
deriving Repr

/-- One response of the chat model: its text content and its (possibly empty)
list of tool invocation requests. -/
structure ModelResponse where
  content : String
  tool_calls : List ToolCall
deriving Repr

/-- Conversation message, as appended to `messages` in `run_master_agent`. -/
inductive Message where
  | user (content : String)
  | assistant (resp : ModelResponse)
  | tool (tool_call_id : String) (content : Json)
deriving Repr

/-- The user-supplied run configuration read from the Streamlit sidebar. -/
structure RunConfig where
  location : String
  structure_name : String
  viz_type : String

/-- Mutable state of one `run_master_agent` invocation: the conversation, the
tool-result accumulator (`tool_results`), and a bookkeeping trace of the
dispatched invocations (tool name with the final, post-override argument
object) used to state properties about what each tool actually received. -/
structure RunState where
  messages : List Message
  tool_results : List (String × Json)
  invocations : List (String × List (String × String))

/-- Dispatch through `available_functions` with Python call semantics:
`none` models an uncaught exception (`KeyError` for an unknown tool name,
`TypeError` when the argument keys do not match the callee's signature — both
tools take exactly two required keyword parameters and no others). -/
def callAvailableFunction (name : String) (args : List (String × String)) : Option Json :=
  if name = "get_heritage_text_record" then
    match dGet "location" args, dGet "structure_name" args with
    | some l, some s =>
        if args.all (fun p => p.1 = "location" ∨ p.1 = "structure_name") then
          some (get_heritage_text_record l s)
        else none
    | _, _ => none
  else if name = "generate_visualization_data" then
    match dGet "data" args, dGet "visualization_type" args with
    | some d, some v =>
        if args.all (fun p => p.1 = "data" ∨ p.1 = "visualization_type") then
          some (generate_visualization_data d v)
        else none
    | _, _ => none
  else none

/-- The `data` value injected for the visualization tool (`app.py` line 148):
`tool_results.get("get_heritage_text_record", {}).get("text_record", "")`.
Both payloads the research tool can store carry a string `text_record`, so the
string-valued read is total on reachable states. -/
def getTextRecord (tool_results : List (String × Json)) : String :=
  match dGet "get_heritage_text_record" tool_results with
  | some j =>
      match textRecordOf j with
      | some s => s
      | none => ""
  | none => ""

/-- Execute one tool call (`app.py` lines 135-156): apply the run-configuration
argument overrides, dispatch, store the decoded result in the accumulator
keyed by tool name, and append a tool-role message to the conversation. -/
def execToolCall (cfg : RunConfig) (st : RunState) (tc : ToolCall) : Option RunState :=
  let finalArgs :=
    if tc.name = "get_heritage_text_record" then
      dSet "structure_name" cfg.structure_name (dSet "location" cfg.location tc.args)
    else if tc.name = "generate_visualization_data" then
      dSet "visualization_type" cfg.viz_type (dSet "data" (getTextRecord st.tool_results) tc.args)
    else tc.args
  match callAvailableFunction tc.name finalArgs with
  | none => none
  | some result =>
      some { messages := st.messages ++ [Message.tool tc.id result],
             tool_results := dSet tc.name result st.tool_results,
             invocations := st.invocations ++ [(tc.name, finalArgs)] }

/-- Execute the tool calls of one model response in order. The boolean is true
when an exception interrupted the batch; the returned state is the progress
made before the interruption. -/
def execToolCalls (cfg : RunConfig) (st : RunState) : List ToolCall → Bool × RunState
  | [] => (false, st)
  | tc :: rest =>
      match execToolCall cfg st tc with
      | none => (true, st)
      | some st' => execToolCalls cfg st' rest

/-- Result of one run. `text = none` models the run dying on an uncaught
exception; `log` records, per model request made, whether tool declarations
were sent with it. -/
structure RunResult where
  text : Option String
  tool_results : List (String × Json)
  messages : List Message
  invocations : List (String × List (String × String))
  log : List Bool

/-- The loop of `run_master_agent` (`app.py` lines 118-160), recursing on the
remaining iteration budget. `req` is the index of the next model request, fed
to the oracle; when the budget is exhausted, one final request without tool
declarations is made and its content returned unconditionally. -/
def runFrom (oracle : Nat → ModelResponse) (cfg : RunConfig) :
    Nat → Nat → RunState → List Bool → RunResult
  | 0, req, st, log =>
      { text := some (oracle req).content, tool_results := st.tool_results,
        messages := st.messages, invocations := st.invocations, log := log ++ [false] }
  | n + 1, req, st, log =>
      let resp := oracle req
      let log' := log ++ [true]
      if resp.tool_calls.isEmpty then
        { text := some resp.content, tool_results := st.tool_results,
          messages := st.messages, invocations := st.invocations, log := log' }
      else
        let st₁ : RunState := { st with messages := st.messages ++ [Message.assistant resp] }
        match execToolCalls cfg st₁ resp.tool_calls with
        | (true, st₂) =>
            { text := none, tool_results := st₂.tool_results, messages := st₂.messages,
              invocations := st₂.invocations, log := log' }
        | (false, st₂) => runFrom oracle cfg n (req + 1) st₂ log'

/-- The agent entry point (`app.py` lines 110-160), with the chat model
abstracted as a response oracle. -/
def run_master_agent (oracle : Nat → ModelResponse)
    (user_prompt location structure_name viz_type : String) : RunResult :=
  runFrom oracle ⟨location, structure_name, viz_type⟩ 3 0
    { messages := [Message.user user_prompt], tool_results := [], invocations := [] } []

/-! Basic facts about the `dict` model. -/

theorem dGet_dSet_self {α : Type} (k : String) (v : α) (l : List (String × α)) :
    dGet k (dSet k v l) = some v := by
  induction l with
  | nil => simp [dGet, dSet]
  | cons p rest ih =>
      obtain ⟨k', v'⟩ := p
      by_cases h : k' = k
      · simp [dSet, dGet, h]
      · simp [dSet, dGet, h, ih]

theorem dGet_dSet_ne {α : Type} {k k' : String} (hne : k' ≠ k) (v : α)
    (l : List (String × α)) : dGet k (dSet k' v l) = dGet k l := by
  induction l with
  | nil => simp [dGet, dSet, hne]
  | cons p rest ih =>
      obtain ⟨k₀, v₀⟩ := p
      by_cases h : k₀ = k'
      · subst h
        simp [dSet, dGet, hne]
      · by_cases h₂ : k₀ = k
        · subst h₂
          simp [dSet, dGet, h]
        · simp [dSet, dGet, h, h₂, ih]

theorem mem_keys_dSet {α : Type} (a k : String) (v : α) (l : List (String × α)) :
    a ∈ (dSet k v l).map Prod.fst ↔ a = k ∨ a ∈ l.map Prod.fst := by
  induction l with
  | nil => simp [dSet]
  | cons p rest ih =>
      obtain ⟨k₀, v₀⟩ := p
      by_cases h : k₀ = k
      · subst h
        simp [dSet]
      · simp [dSet, h, ih]
        tauto

theorem nodup_keys_dSet {α : Type} (k : String) (v : α) {l : List (String × α)}
    (h : (l.map Prod.fst).Nodup) : ((dSet k v l).map Prod.fst).Nodup := by
  induction l with
  | nil => simp [dSet]
  | cons p rest ih =>
      obtain ⟨k₀, v₀⟩ := p
      simp only [List.map_cons, List.nodup_cons] at h
      by_cases hk : k₀ = k
      · have hset : dSet k v ((k₀, v₀) :: rest) = (k, v) :: rest := by simp [dSet, hk]
        rw [hset]
        simp only [List.map_cons, List.nodup_cons]
        subst hk
        exact h
      · simp only [dSet, if_neg hk, List.map_cons, List.nodup_cons]
        refine ⟨fun hmem => ?_, ih h.2⟩
        rcases (mem_keys_dSet k₀ k v rest).mp hmem with h₁ | h₁
        · exact hk h₁
        · exact h.1 h₁

/-- The not-found message is never the empty string. -/
theorem notFoundMsg_length_ne_zero (s : String) : (notFoundMsg s).length ≠ 0 := by
  have h1 : ("'" : String).length = 1 := rfl
  rw [notFoundMsg, String.length_append, String.length_append, h1]
  omega

set_option maxRecDepth 4096 in
/-- C5: for every pair of string inputs, `get_heritage_text_record` returns a
payload (it is total, modelling that the Python function never raises) whose
status is `success` exactly when `structure_name` contains the hard-coded
match substring and `error` otherwise, and whose `text_record` field is
present and non-empty in every case — in particular on success. -/
theorem C5_get_heritage_text_record_classification (location structure_name : String) :
    statusOf (get_heritage_text_record location structure_name)
        = some (if pyIn "홍길동" structure_name then "success" else "error")
    ∧ optStrNonEmpty (textRecordOf (get_heritage_text_record location structure_name)) = true := by
  by_cases h : pyIn "홍길동" structure_name
  · refine ⟨?_, ?_⟩
    · simp [get_heritage_text_record, statusOf, objGetStr, dGet, h]
    · simp only [get_heritage_text_record, if_pos h]
      show optStrNonEmpty (textRecordOf (Json.obj _)) = true
      simp [textRecordOf, objGetStr, dGet, optStrNonEmpty]
      decide
  · refine ⟨?_, ?_⟩
    · simp [get_heritage_text_record, statusOf, objGetStr, dGet, h]
    · simp only [get_heritage_text_record, if_neg h]
      show optStrNonEmpty (textRecordOf (Json.obj _)) = true
      simp [textRecordOf, objGetStr, dGet, optStrNonEmpty]
      exact notFoundMsg_length_ne_zero structure_name

/-- C6: for every pair of string inputs, `generate_visualization_data` returns
`status = error` whenever `data` lacks the required substring or
`visualization_type` is not exactly `"timeline"`; otherwise `status = success`
with the year values `1920, 1925, 1930, 1935`, which are non-decreasing (and
the year list is non-decreasing in every case). -/
theorem C6_generate_visualization_data_classification (data visualization_type : String) :
    statusOf (generate_visualization_data data visualization_type)
        = some (if pyIn "단색화" data && (visualization_type == "timeline")
                then "success" else "error")
    ∧ yearsOf (generate_visualization_data data visualization_type)
        = (if pyIn "단색화" data && (visualization_type == "timeline")
           then [1920, 1925, 1930, 1935] else [])
    ∧ (yearsOf (generate_visualization_data data visualization_type)).Chain' (· ≤ ·) := by
  by_cases h : (pyIn "단색화" data && (visualization_type == "timeline")) = true
  · refine ⟨?_, ?_, ?_⟩
    · simp [generate_visualization_data, statusOf, objGetStr, dGet, h]
    · simp [generate_visualization_data, yearsOf, dGet, h]
    · simp [generate_visualization_data, yearsOf, dGet, h]
  · rw [Bool.not_eq_true] at h
    refine ⟨?_, ?_, ?_⟩
    · simp [generate_visualization_data, statusOf, objGetStr, dGet, h]
    · simp [generate_visualization_data, yearsOf, dGet, h]
    · simp [generate_visualization_data, yearsOf, dGet, h]

/-- C9: `get_heritage_text_record` is a pure function of its two inputs (the
embedding is pure because the Python body reads no mutable state besides the
simulated delay): identical arguments give byte-identical serialized JSON
payloads. -/
theorem C9_get_heritage_text_record_deterministic (l s l' s' : String)
    (hl : l = l') (hs : s = s') :
    (get_heritage_text_record l s).dumps = (get_heritage_text_record l' s').dumps := by
  subst hl
  subst hs
  rfl

/-- Witness for C9 at a concrete argument pair. -/
theorem C9_get_heritage_text_record_deterministic_witness :
    (get_heritage_text_record "서울 종로" "홍길동 작가").dumps
      = (get_heritage_text_record "서울 종로" "홍길동 작가").dumps :=
  C9_get_heritage_text_record_deterministic "서울 종로" "홍길동 작가" "서울 종로" "홍길동 작가"
    rfl rfl

/-- Dispatching the research tool on arguments overridden by the run
configuration always invokes `get_heritage_text_record` on exactly the
configuration's values (when the leftover model-supplied keys do not make the
call raise). -/
theorem callAvailableFunction_research_override (l s : String)
    (args : List (String × String)) :
    callAvailableFunction "get_heritage_text_record"
        (dSet "structure_name" s (dSet "location" l args))
      = if (dSet "structure_name" s (dSet "location" l args)).all
            (fun p => p.1 = "location" ∨ p.1 = "structure_name")
        then some (get_heritage_text_record l s) else none := by
  unfold callAvailableFunction
  rw [if_pos rfl, dGet_dSet_self,
      dGet_dSet_ne (show "structure_name" ≠ "location" by decide), dGet_dSet_self]

/-- Dispatching the visualization tool on arguments overridden by the run
configuration always invokes `generate_visualization_data` on exactly the
injected record and the configuration's preference. -/
theorem callAvailableFunction_visualization_override (d v : String)
    (args : List (String × String)) :
    callAvailableFunction "generate_visualization_data"
        (dSet "visualization_type" v (dSet "data" d args))
      = if (dSet "visualization_type" v (dSet "data" d args)).all
            (fun p => p.1 = "data" ∨ p.1 = "visualization_type")
        then some (generate_visualization_data d v) else none := by
  unfold callAvailableFunction
  rw [if_neg (show ¬("generate_visualization_data" = "get_heritage_text_record") by decide),
      if_pos rfl, dGet_dSet_self,
      dGet_dSet_ne (show "visualization_type" ≠ "data" by decide), dGet_dSet_self]

/-- C2: for every tool invocation the model requests, the run configuration
overrides the model-supplied arguments. A dispatched research call stores
`get_heritage_text_record` applied to the configuration's `location` and
`structure_name` (and the invoked argument object carries exactly those
values); a dispatched visualization call stores `generate_visualization_data`
applied to the accumulator's latest research `text_record` and the
configuration's visualization preference — in both cases regardless of
`tc.args`, the arguments the model supplied. -/
theorem C2_run_config_overrides (cfg : RunConfig) (st st' : RunState) (tc : ToolCall) :
    (tc.name = "get_heritage_text_record" →
      execToolCall cfg st tc = some st' →
      dGet "get_heritage_text_record" st'.tool_results
          = some (get_heritage_text_record cfg.location cfg.structure_name)
      ∧ ∃ args, st'.invocations = st.invocations ++ [("get_heritage_text_record", args)]
          ∧ dGet "location" args = some cfg.location
          ∧ dGet "structure_name" args = some cfg.structure_name)
    ∧ (tc.name = "generate_visualization_data" →
      execToolCall cfg st tc = some st' →
      dGet "generate_visualization_data" st'.tool_results
          = some (generate_visualization_data (getTextRecord st.tool_results) cfg.viz_type)
      ∧ ∃ args, st'.invocations = st.invocations ++ [("generate_visualization_data", args)]
          ∧ dGet "data" args = some (getTextRecord st.tool_results)
          ∧ dGet "visualization_type" args = some cfg.viz_type) := by
  constructor
  · intro hname hexec
    rw [execToolCall, hname] at hexec
    rw [if_pos rfl, callAvailableFunction_research_override] at hexec
    by_cases hkeys : (dSet "structure_name" cfg.structure_name
        (dSet "location" cfg.location tc.args)).all
          (fun p => p.1 = "location" ∨ p.1 = "structure_name")
    · rw [if_pos hkeys] at hexec
      simp only [Option.some.injEq] at hexec
      subst hexec
      refine ⟨dGet_dSet_self _ _ _,
        ⟨dSet "structure_name" cfg.structure_name (dSet "location" cfg.location tc.args),
          rfl, ?_, dGet_dSet_self _ _ _⟩⟩
      rw [dGet_dSet_ne (show "structure_name" ≠ "location" by decide), dGet_dSet_self]
    · rw [if_neg hkeys] at hexec
      exact absurd hexec (by simp)
  · intro hname hexec
    rw [execToolCall, hname] at hexec
    rw [if_neg (show ¬("generate_visualization_data" = "get_heritage_text_record") by decide),
        if_pos rfl, callAvailableFunction_visualization_override] at hexec
    by_cases hkeys : (dSet "visualization_type" cfg.viz_type
        (dSet "data" (getTextRecord st.tool_results) tc.args)).all
          (fun p => p.1 = "data" ∨ p.1 = "visualization_type")
    · rw [if_pos hkeys] at hexec
      simp only [Option.some.injEq] at hexec
      subst hexec
      refine ⟨dGet_dSet_self _ _ _,
        ⟨dSet "visualization_type" cfg.viz_type
            (dSet "data" (getTextRecord st.tool_results) tc.args),
          rfl, ?_, dGet_dSet_self _ _ _⟩⟩
      rw [dGet_dSet_ne (show "visualization_type" ≠ "data" by decide), dGet_dSet_self]
    · rw [if_neg hkeys] at hexec
      exact absurd hexec (by simp)

/-- C7: if the model's first response carries no tool invocation requests, the
run returns after exactly one model request (one log entry, with tools
declared) and the returned accumulator is empty. -/
theorem C7_first_response_without_tools (oracle : Nat → ModelResponse)
    (user_prompt location structure_name viz_type : String)
    (h : (oracle 0).tool_calls = []) :
    (run_master_agent oracle user_prompt location structure_name viz_type).log = [true]
    ∧ (run_master_agent oracle user_prompt location structure_name viz_type).tool_results = []
    ∧ (run_master_agent oracle user_prompt location structure_name viz_type).text
        = some (oracle 0).content := by
  unfold run_master_agent runFrom
  simp [h]

/-- Witness for C7: a model that answers directly on its first response. -/
theorem C7_first_response_without_tools_witness :
    (run_master_agent (fun _ => { content := "직접 답변", tool_calls := [] })
        "분석 요청" "서울 종로" "홍길동 작가" "연표").log = [true]
    ∧ (run_master_agent (fun _ => { content := "직접 답변", tool_calls := [] })
        "분석 요청" "서울 종로" "홍길동 작가" "연표").tool_results = []
    ∧ (run_master_agent (fun _ => { content := "직접 답변", tool_calls := [] })
        "분석 요청" "서울 종로" "홍길동 작가" "연표").text = some "직접 답변" :=
  C7_first_response_without_tools (fun _ => { content := "직접 답변", tool_calls := [] })
    "분석 요청" "서울 종로" "홍길동 작가" "연표" rfl

/-- Each run extends its request log by at most `fuel + 1` entries, of which
at most `fuel` declare tools. -/
theorem runFrom_log_bound (oracle : Nat → ModelResponse) (cfg : RunConfig) :
    ∀ (n req : Nat) (st : RunState) (log : List Bool),
      (runFrom oracle cfg n req st log).log.length ≤ log.length + n + 1
      ∧ (runFrom oracle cfg n req st log).log.count true ≤ log.count true + n := by
  intro n
  induction n with
  | zero =>
      intro req st log
      simp [runFrom]
  | succ n ih =>
      intro req st log
      rw [runFrom]
      by_cases hempty : (oracle req).tool_calls.isEmpty
      · simp only [hempty, if_pos]
        simp
      · simp only [hempty]
        rw [if_neg (by simp [hempty])]
        rcases hexec : execToolCalls cfg
            { st with messages := st.messages ++ [Message.assistant (oracle req)] }
            (oracle req).tool_calls with ⟨crashed, st₂⟩
        cases crashed
        · have := ih (req + 1) st₂ (log ++ [true])
          simp only [List.length_append, List.count_append] at this
          constructor
          · calc (runFrom oracle cfg n (req + 1) st₂ (log ++ [true])).log.length
                ≤ log.length + 1 + n + 1 := by simpa using this.1
            _ ≤ log.length + (n + 1) + 1 := by omega
          · calc (runFrom oracle cfg n (req + 1) st₂ (log ++ [true])).log.count true
                ≤ log.count true + 1 + n := by simpa using this.2
            _ ≤ log.count true + (n + 1) := by omega
        · simp
      

/-- When every loop response requests tools and no exception occurs, the run
uses its whole budget, appends one final tool-free request, and returns that
final response's content unconditionally. -/
theorem runFrom_all_tool_calls (oracle : Nat → ModelResponse) (cfg : RunConfig) :
    ∀ (n req : Nat) (st : RunState) (log : List Bool),
      (∀ i, i < n → (oracle (req + i)).tool_calls ≠ []) →
      (runFrom oracle cfg n req st log).text ≠ none →
      (runFrom oracle cfg n req st log).log = log ++ List.replicate n true ++ [false]
      ∧ (runFrom oracle cfg n req st log).text = some ((oracle (req + n)).content) := by
  intro n
  induction n with
  | zero =>
      intro req st log _ _
      simp [runFrom]
  | succ n ih =>
      intro req st log hall htext
      rw [runFrom] at htext ⊢
      have h0 : (oracle req).tool_calls ≠ [] := by
        have := hall 0 (Nat.succ_pos n)
        simpa using this
      have hempty : (oracle req).tool_calls.isEmpty = false := by
        simp [List.isEmpty_iff, h0]
      rw [if_neg (by simp [hempty])] at htext ⊢
      simp only [] at htext ⊢
      rcases hexec : execToolCalls cfg
          { st with messages := st.messages ++ [Message.assistant (oracle req)] }
          (oracle req).tool_calls with ⟨crashed, st₂⟩
      cases crashed
      · rw [hexec] at htext
        have hall' : ∀ i, i < n → (oracle (req + 1 + i)).tool_calls ≠ [] := by
          intro i hi
          have := hall (i + 1) (by omega)
          have harith : req + (i + 1) = req + 1 + i := by omega
          rwa [harith] at this
        have hres := ih (req + 1) st₂ (log ++ [true]) hall' htext
        refine ⟨?_, ?_⟩
        · show (runFrom oracle cfg n (req + 1) st₂ (log ++ [true])).log
              = log ++ List.replicate (n + 1) true ++ [false]
          rw [hres.1]
          simp [List.replicate_succ, List.append_assoc]
        · show (runFrom oracle cfg n (req + 1) st₂ (log ++ [true])).text
              = some (oracle (req + (n + 1))).content
          rw [hres.2]
          have harith : req + 1 + n = req + (n + 1) := by omega
          rw [harith]
      · rw [hexec] at htext
        exact absurd rfl htext

/-- C1: every run makes at most 3 tool-declaring model requests and at most 4
requests in total; when all 3 loop responses contain tool calls (and the run
does not die on an exception), exactly one additional tool-free request is
made, and its content is returned together with the accumulator without the
final response being inspected for tool calls (the oracle at index 3 is
arbitrary). -/
theorem C1_agent_loop_bounded (oracle : Nat → ModelResponse)
    (user_prompt location structure_name viz_type : String) :
    (run_master_agent oracle user_prompt location structure_name viz_type).log.count true ≤ 3
    ∧ (run_master_agent oracle user_prompt location structure_name viz_type).log.length ≤ 4
    ∧ ((∀ i, i < 3 → (oracle i).tool_calls ≠ []) →
       (run_master_agent oracle user_prompt location structure_name viz_type).text ≠ none →
       (run_master_agent oracle user_prompt location structure_name viz_type).log
           = [true, true, true, false]
       ∧ (run_master_agent oracle user_prompt location structure_name viz_type).text
           = some (oracle 3).content) := by
  refine ⟨?_, ?_, ?_⟩
  · have h := (runFrom_log_bound oracle ⟨location, structure_name, viz_type⟩ 3 0
      { messages := [Message.user user_prompt], tool_results := [], invocations := [] } []).2
    simpa [run_master_agent] using h
  · have h := (runFrom_log_bound oracle ⟨location, structure_name, viz_type⟩ 3 0
      { messages := [Message.user user_prompt], tool_results := [], invocations := [] } []).1
    simpa [run_master_agent] using h
  · intro hall htext
    have h := runFrom_all_tool_calls oracle ⟨location, structure_name, viz_type⟩ 3 0
      { messages := [Message.user user_prompt], tool_results := [], invocations := [] } []
      (by intro i hi; simpa using hall i hi)
      (by simpa [run_master_agent] using htext)
    constructor
    · have h1 := h.1
      rw [show (List.replicate 3 true) = [true, true, true] from rfl] at h1
      simpa [run_master_agent] using h1
    · have h2 := h.2
      simpa [run_master_agent] using h2

/-- A model that requests the research tool on every response. -/
def oracleAllTools : Nat → ModelResponse := fun _ =>
  { content := "강제 종합 답변",
    tool_calls := [{ id := "call_x", name := "get_heritage_text_record", args := [] }] }

/-- Witness for C1: with a model that requests tools on all three loop
responses, the run performs exactly 3 tool round trips plus one tool-free
finalization request and returns that response's content. -/
theorem C1_agent_loop_bounded_witness :
    (run_master_agent oracleAllTools "분석 요청" "서울 종로" "홍길동 작가" "연표").log
        = [true, true, true, false]
    ∧ (run_master_agent oracleAllTools "분석 요청" "서울 종로" "홍길동 작가" "연표").text
        = some (oracleAllTools 3).content :=
  (C1_agent_loop_bounded oracleAllTools "분석 요청" "서울 종로" "홍길동 작가" "연표").2.2
    (fun i _ => by simp [oracleAllTools])
    (by decide)

/-- Number of tool-role messages in a conversation. -/
def toolMsgCount (msgs : List Message) : Nat :=
  msgs.countP (fun m => match m with | Message.tool _ _ => true | _ => false)

/-- The bookkeeping invariant of a run state: accumulator keys are
duplicate-free, and the conversation holds exactly one tool-role message per
dispatched invocation. -/
def StateInv (st : RunState) : Prop :=
  (st.tool_results.map Prod.fst).Nodup
  ∧ toolMsgCount st.messages = st.invocations.length

theorem toolMsgCount_append (a b : List Message) :
    toolMsgCount (a ++ b) = toolMsgCount a + toolMsgCount b :=
  List.countP_append _ _ _

theorem execToolCall_inv {cfg : RunConfig} {st st' : RunState} {tc : ToolCall}
    (hexec : execToolCall cfg st tc = some st') (hinv : StateInv st) : StateInv st' := by
  simp only [execToolCall] at hexec
  rcases hcall : callAvailableFunction tc.name
      (if tc.name = "get_heritage_text_record" then
        dSet "structure_name" cfg.structure_name (dSet "location" cfg.location tc.args)
      else if tc.name = "generate_visualization_data" then
        dSet "visualization_type" cfg.viz_type
          (dSet "data" (getTextRecord st.tool_results) tc.args)
      else tc.args) with _ | result
  · rw [hcall] at hexec
    exact absurd hexec (by simp)
  · rw [hcall] at hexec
    simp only [Option.some.injEq] at hexec
    subst hexec
    refine ⟨nodup_keys_dSet _ _ hinv.1, ?_⟩
    show toolMsgCount (st.messages ++ [Message.tool tc.id result])
        = (st.invocations ++ [(tc.name, _)]).length
    rw [toolMsgCount_append, List.length_append, hinv.2]
    rfl

theorem execToolCalls_inv (cfg : RunConfig) (tcs : List ToolCall) :
    ∀ {st : RunState}, StateInv st → StateInv (execToolCalls cfg st tcs).2 := by
  induction tcs with
  | nil =>
      intro st hinv
      simpa [execToolCalls] using hinv
  | cons tc rest ih =>
      intro st hinv
      rw [execToolCalls]
      rcases hexec : execToolCall cfg st tc with _ | st'
      · simpa using hinv
      · exact ih (execToolCall_inv hexec hinv)

theorem runFrom_inv (oracle : Nat → ModelResponse) (cfg : RunConfig) :
    ∀ (n req : Nat) (st : RunState) (log : List Bool), StateInv st →
      ((runFrom oracle cfg n req st log).tool_results.map Prod.fst).Nodup
      ∧ toolMsgCount (runFrom oracle cfg n req st log).messages
          = (runFrom oracle cfg n req st log).invocations.length := by
  intro n
  induction n with
  | zero =>
      intro req st log hinv
      simpa [runFrom] using hinv
  | succ n ih =>
      intro req st log hinv
      rw [runFrom]
      by_cases hempty : (oracle req).tool_calls.isEmpty
      · simp only [hempty, if_pos]
        simpa using hinv
      · rw [if_neg (by simp [hempty])]
        simp only []
        have hinv₁ : StateInv { st with messages := st.messages ++ [Message.assistant (oracle req)] } := by
          refine ⟨hinv.1, ?_⟩
          show toolMsgCount (st.messages ++ [Message.assistant (oracle req)]) = st.invocations.length
          rw [toolMsgCount_append, hinv.2]
          rfl
        have hinv₂ := execToolCalls_inv cfg (oracle req).tool_calls hinv₁
        rcases hexec : execToolCalls cfg
            { st with messages := st.messages ++ [Message.assistant (oracle req)] }
            (oracle req).tool_calls with ⟨crashed, st₂⟩
        rw [hexec] at hinv₂
        cases crashed
        · exact ih (req + 1) st₂ (log ++ [true]) hinv₂
        · exact hinv₂

/-- C8: throughout every run, the returned accumulator has at most one entry
per tool name (its keys are duplicate-free, and writing a tool's result always
overwrites any earlier entry under that name — last write wins), while the
conversation keeps one appended tool-result message for every dispatched
invocation, even when a tool is called more than once. -/
theorem C8_accumulator_last_write_conversation_full_history
    (oracle : Nat → ModelResponse)
    (user_prompt location structure_name viz_type : String) :
    ((run_master_agent oracle user_prompt location structure_name viz_type).tool_results.map
        Prod.fst).Nodup
    ∧ toolMsgCount (run_master_agent oracle user_prompt location structure_name viz_type).messages
        = (run_master_agent oracle user_prompt location structure_name viz_type).invocations.length
    ∧ (∀ (k : String) (v : Json) (m : List (String × Json)), dGet k (dSet k v m) = some v) := by
  have h := runFrom_inv oracle ⟨location, structure_name, viz_type⟩ 3 0
    { messages := [Message.user user_prompt], tool_results := [], invocations := [] } []
    ⟨by simp, by rfl⟩
  exact ⟨h.1, h.2, fun k v m => dGet_dSet_self k v m⟩

/-- The subject name is a substring of its own not-found message. -/
theorem pyIn_self_notFoundMsg (s : String) : pyIn s (notFoundMsg s) = true := by
  apply decide_eq_true
  refine ⟨("'" : String).data, ("'에 대한 상세 기록을 찾을 수 없습니다." : String).data, ?_⟩
  rw [notFoundMsg, String.data_append, String.data_append]

/-- C10: the error payload of `get_heritage_text_record` carries a non-empty
`text_record` — the not-found message, which contains the subject name — and a
visualization dispatch performed after such a failed lookup injects exactly
that non-empty message as the `data` argument, not the empty string. -/
theorem C10_error_payload_feeds_nonempty_data (l s : String)
    (hmiss : pyIn "홍길동" s = false) :
    textRecordOf (get_heritage_text_record l s) = some (notFoundMsg s)
    ∧ (notFoundMsg s).length ≠ 0
    ∧ pyIn s (notFoundMsg s) = true
    ∧ (∀ (cfg : RunConfig) (st st' : RunState) (tc : ToolCall),
        dGet "get_heritage_text_record" st.tool_results
            = some (get_heritage_text_record l s) →
        tc.name = "generate_visualization_data" →
        execToolCall cfg st tc = some st' →
        ∃ args, st'.invocations = st.invocations ++ [("generate_visualization_data", args)]
            ∧ dGet "data" args = some (notFoundMsg s)) := by
  have hrec : textRecordOf (get_heritage_text_record l s) = some (notFoundMsg s) := by
    simp [get_heritage_text_record, hmiss, textRecordOf, objGetStr, dGet]
  refine ⟨hrec, notFoundMsg_length_ne_zero s, pyIn_self_notFoundMsg s, ?_⟩
  intro cfg st st' tc hacc hname hexec
  have hdata : getTextRecord st.tool_results = notFoundMsg s := by
    simp only [getTextRecord, hacc, hrec]
  rw [execToolCall, hname] at hexec
  rw [if_neg (show ¬("generate_visualization_data" = "get_heritage_text_record") by decide),
      if_pos rfl, hdata, callAvailableFunction_visualization_override] at hexec
  by_cases hkeys : (dSet "visualization_type" cfg.viz_type
      (dSet "data" (notFoundMsg s) tc.args)).all
        (fun p => p.1 = "data" ∨ p.1 = "visualization_type")
  · rw [if_pos hkeys] at hexec
    simp only [Option.some.injEq] at hexec
    subst hexec
    refine ⟨dSet "visualization_type" cfg.viz_type (dSet "data" (notFoundMsg s) tc.args),
      rfl, ?_⟩
    rw [dGet_dSet_ne (show "visualization_type" ≠ "data" by decide), dGet_dSet_self]
  · rw [if_neg hkeys] at hexec
    exact absurd hexec (by simp)

/-- A model trace for the end-to-end scenario: it requests research on its
first response, visualization on its second, and answers on its third. -/
def oracleScenarioA : Nat → ModelResponse := fun n =>
  if n = 0 then
    { content := "",
      tool_calls := [{ id := "call_1", name := "get_heritage_text_record",
                       args := [("structure_name", "홍길동"), ("location", "서울")] }] }
  else if n = 1 then
    { content := "",
      tool_calls := [{ id := "call_2", name := "generate_visualization_data",
                       args := [("data", "모델이 지어낸 텍스트"), ("visualization_type", "timeline")] }] }
  else { content := "최종 분석", tool_calls := [] }

set_option maxRecDepth 16384 in
/-- C3 (failing-input evaluation): in an end-to-end run with the matching
subject name and the UI's timeline option (internal value `"연표"`), where the
model requests both tools, the research result is `success` but the
visualization result is `error` — not `success` as the claim (and the result
rendering code in `app.py` lines 205-212, which expects a success payload with
`visualization_type = "연표"`) requires, because the injected
`visualization_type` `"연표"` fails the tool's `== "timeline"` check. -/
theorem C3_timeline_run_visualization_errors :
    ((run_master_agent oracleScenarioA "분석 요청" "서울 종로" "홍길동 작가" "연표").tool_results.map
        (fun p => (p.1, statusOf p.2)))
      = [("get_heritage_text_record", some "success"),
         ("generate_visualization_data", some "error")] := by
  decide

/-- A model trace for the no-match scenario: research first, then
visualization, then a plain answer. -/
def oracleScenarioB : Nat → ModelResponse := fun n =>
  if n = 0 then
    { content := "",
      tool_calls := [{ id := "call_1", name := "get_heritage_text_record", args := [] }] }
  else if n = 1 then
    { content := "",
      tool_calls := [{ id := "call_2", name := "generate_visualization_data", args := [] }] }
  else { content := "기록 없음 답변", tool_calls := [] }

set_option maxRecDepth 16384 in
/-- C4 counterexample: in an end-to-end run whose subject name matches no
record, the visualization tool is NOT invoked with an empty `data` argument:
it receives the research error payload's not-found message, which is not the
empty string. -/
theorem C4_counterexample_data_not_empty :
    (run_master_agent oracleScenarioB "분석 요청" "서울 종로" "놀부" "연표").invocations
      = [("get_heritage_text_record",
          [("location", "서울 종로"), ("structure_name", "놀부")]),
         ("generate_visualization_data",
          [("data", notFoundMsg "놀부"), ("visualization_type", "연표")])]
    ∧ notFoundMsg "놀부" ≠ "" := by
  constructor
  · decide
  · decide

/-- C4 (amended): in a run whose subject name matches no record, every
dispatched research call stores a `status = error` payload; a visualization
call dispatched after such a failed lookup receives the research error
payload's non-empty not-found message as its `data` argument (not the empty
string), and — the UI's selectable preferences never being `"timeline"` — its
stored result also has `status = error`. -/
theorem C4_no_match_error_propagation (cfg : RunConfig)
    (hmiss : pyIn "홍길동" cfg.structure_name = false) (hvt : cfg.viz_type ≠ "timeline") :
    (∀ (st st' : RunState) (tc : ToolCall),
        tc.name = "get_heritage_text_record" →
        execToolCall cfg st tc = some st' →
        (dGet "get_heritage_text_record" st'.tool_results).map statusOf
          = some (some "error"))
    ∧ (∀ (st st' : RunState) (tc : ToolCall),
        dGet "get_heritage_text_record" st.tool_results
            = some (get_heritage_text_record cfg.location cfg.structure_name) →
        tc.name = "generate_visualization_data" →
        execToolCall cfg st tc = some st' →
        (∃ args, st'.invocations = st.invocations ++ [("generate_visualization_data", args)]
            ∧ dGet "data" args = some (notFoundMsg cfg.structure_name))
        ∧ (notFoundMsg cfg.structure_name).length ≠ 0
        ∧ (dGet "generate_visualization_data" st'.tool_results).map statusOf
            = some (some "error")) := by
  have herr : get_heritage_text_record cfg.location cfg.structure_name
      = Json.obj [("status", Json.str "error"),
                  ("text_record", Json.str (notFoundMsg cfg.structure_name))] := by
    rw [get_heritage_text_record]
    rw [if_neg (by rw [hmiss]; exact Bool.false_ne_true)]
  have hverr : generate_visualization_data (notFoundMsg cfg.structure_name) cfg.viz_type
      = Json.obj [("status", Json.str "error"),
                  ("message", Json.str "요청된 시각화 데이터를 생성할 수 없습니다.")] := by
    have hbeq : (cfg.viz_type == "timeline") = false := by
      simp [hvt]
    rw [generate_visualization_data]
    rw [if_neg (by rw [hbeq, Bool.and_false]; exact Bool.false_ne_true)]
  constructor
  · intro st st' tc hname hexec
    rw [execToolCall, hname] at hexec
    rw [if_pos rfl, callAvailableFunction_research_override] at hexec
    by_cases hkeys : (dSet "structure_name" cfg.structure_name
        (dSet "location" cfg.location tc.args)).all
          (fun p => p.1 = "location" ∨ p.1 = "structure_name")
    · rw [if_pos hkeys] at hexec
      simp only [Option.some.injEq] at hexec
      subst hexec
      show (dGet "get_heritage_text_record"
          (dSet "get_heritage_text_record"
            (get_heritage_text_record cfg.location cfg.structure_name)
            st.tool_results)).map statusOf
        = some (some "error")
      rw [dGet_dSet_self, herr]
      rfl
    · rw [if_neg hkeys] at hexec
      exact absurd hexec (by simp)
  · intro st st' tc hacc hname hexec
    have hdata : getTextRecord st.tool_results = notFoundMsg cfg.structure_name := by
      simp only [getTextRecord, hacc, herr, textRecordOf, objGetStr, dGet]
      rfl
    rw [execToolCall, hname] at hexec
    rw [if_neg (show ¬("generate_visualization_data" = "get_heritage_text_record") by decide),
        if_pos rfl, hdata, callAvailableFunction_visualization_override] at hexec
    by_cases hkeys : (dSet "visualization_type" cfg.viz_type
        (dSet "data" (notFoundMsg cfg.structure_name) tc.args)).all
          (fun p => p.1 = "data" ∨ p.1 = "visualization_type")
    · rw [if_pos hkeys] at hexec
      simp only [Option.some.injEq] at hexec
      subst hexec
      refine ⟨⟨dSet "visualization_type" cfg.viz_type
            (dSet "data" (notFoundMsg cfg.structure_name) tc.args),
          rfl, ?_⟩, notFoundMsg_length_ne_zero cfg.structure_name, ?_⟩
      · rw [dGet_dSet_ne (show "visualization_type" ≠ "data" by decide), dGet_dSet_self]
      · show (dGet "generate_visualization_data"
            (dSet "generate_visualization_data"
              (generate_visualization_data (notFoundMsg cfg.structure_name) cfg.viz_type)
              st.tool_results)).map statusOf
          = some (some "error")
        rw [dGet_dSet_self, hverr]
        rfl
    · rw [if_neg hkeys] at hexec
      exact absurd hexec (by simp)

/-- Concrete run configuration used by witnesses. -/
def cfgW : RunConfig := ⟨"서울 종로", "홍길동 작가", "연표"⟩

/-- Concrete pre-dispatch state for the C2 witness. -/
def stW : RunState := { messages := [Message.user "질문"], tool_results := [], invocations := [] }

/-- A research tool call carrying model-hallucinated arguments. -/
def tcW : ToolCall :=
  ⟨"call_1", "get_heritage_text_record", [("structure_name", "모형 인자"), ("location", "파리")]⟩

/-- The state after dispatching `tcW` from `stW` under `cfgW`. -/
def stW' : RunState :=
  { messages := stW.messages
      ++ [Message.tool "call_1" (get_heritage_text_record "서울 종로" "홍길동 작가")],
    tool_results := [("get_heritage_text_record",
      get_heritage_text_record "서울 종로" "홍길동 작가")],
    invocations := [("get_heritage_text_record",
      [("structure_name", "홍길동 작가"), ("location", "서울 종로")])] }

set_option maxRecDepth 4096 in
/-- Witness for C2: a research dispatch whose model-supplied `location` and
`structure_name` differ from the run configuration still invokes the tool on
the configuration's values. -/
theorem C2_run_config_overrides_witness :
    dGet "get_heritage_text_record" stW'.tool_results
        = some (get_heritage_text_record cfgW.location cfgW.structure_name)
    ∧ ∃ args, stW'.invocations = stW.invocations ++ [("get_heritage_text_record", args)]
        ∧ dGet "location" args = some cfgW.location
        ∧ dGet "structure_name" args = some cfgW.structure_name :=
  (C2_run_config_overrides cfgW stW stW' tcW).1 rfl (by rfl)

/-- Concrete no-match run configuration used by witnesses. -/
def cfgB : RunConfig := ⟨"서울 종로", "놀부", "연표"⟩

/-- State after a failed lookup for subject `"놀부"`. -/
def stB : RunState :=
  { messages := [Message.user "질문"],
    tool_results := [("get_heritage_text_record", get_heritage_text_record "서울 종로" "놀부")],
    invocations := [("get_heritage_text_record",
      [("location", "서울 종로"), ("structure_name", "놀부")])] }

/-- A visualization tool call with no model-supplied arguments. -/
def tcB : ToolCall := ⟨"call_2", "generate_visualization_data", []⟩

/-- The state after dispatching `tcB` from `stB` under `cfgB`. -/
def stB' : RunState :=
  { messages := stB.messages
      ++ [Message.tool "call_2" (generate_visualization_data (notFoundMsg "놀부") "연표")],
    tool_results := stB.tool_results
      ++ [("generate_visualization_data",
          generate_visualization_data (notFoundMsg "놀부") "연표")],
    invocations := stB.invocations
      ++ [("generate_visualization_data",
          [("data", notFoundMsg "놀부"), ("visualization_type", "연표")])] }

set_option maxRecDepth 4096 in
/-- Witness for the amended C4: after the failed lookup for `"놀부"`, a
visualization dispatch receives the non-empty not-found message and stores an
error result. -/
theorem C4_no_match_error_propagation_witness :
    (∃ args, stB'.invocations = stB.invocations ++ [("generate_visualization_data", args)]
        ∧ dGet "data" args = some (notFoundMsg cfgB.structure_name))
    ∧ (notFoundMsg cfgB.structure_name).length ≠ 0
    ∧ (dGet "generate_visualization_data" stB'.tool_results).map statusOf
        = some (some "error") :=
  (C4_no_match_error_propagation cfgB (by decide) (by decide)).2 stB stB' tcB rfl rfl (by rfl)

/-- Concrete no-match state for the C10 witness (same shape as `stB`). -/
def stV : RunState :=
  { messages := [Message.user "질문"],
    tool_results := [("get_heritage_text_record", get_heritage_text_record "서울 종로" "놀부")],
    invocations := [("get_heritage_text_record",
      [("location", "서울 종로"), ("structure_name", "놀부")])] }

/-- A visualization tool call used by the C10 witness. -/
def tcV : ToolCall := ⟨"call_2", "generate_visualization_data", []⟩

/-- The state after dispatching `tcV` from `stV` under `cfgB`-like values. -/
def stV' : RunState :=
  { messages := stV.messages
      ++ [Message.tool "call_2" (generate_visualization_data (notFoundMsg "놀부") "연표")],
    tool_results := stV.tool_results
      ++ [("generate_visualization_data",
          generate_visualization_data (notFoundMsg "놀부") "연표")],
    invocations := stV.invocations
      ++ [("generate_visualization_data",
          [("data", notFoundMsg "놀부"), ("visualization_type", "연표")])] }

set_option maxRecDepth 4096 in
/-- Witness for C10: the failed lookup's error payload feeds its non-empty
not-found message into the visualization dispatch. -/
theorem C10_error_payload_feeds_nonempty_data_witness :
    textRecordOf (get_heritage_text_record "서울 종로" "놀부") = some (notFoundMsg "놀부")
    ∧ (notFoundMsg "놀부").length ≠ 0
    ∧ pyIn "놀부" (notFoundMsg "놀부") = true
    ∧ ∃ args, stV'.invocations = stV.invocations ++ [("generate_visualization_data", args)]
        ∧ dGet "data" args = some (notFoundMsg "놀부") :=
  ⟨(C10_error_payload_feeds_nonempty_data "서울 종로" "놀부" (by decide)).1,
   (C10_error_payload_feeds_nonempty_data "서울 종로" "놀부" (by decide)).2.1,
   (C10_error_payload_feeds_nonempty_data "서울 종로" "놀부" (by decide)).2.2.1,
   (C10_error_payload_feeds_nonempty_data "서울 종로" "놀부" (by decide)).2.2.2
     ⟨"서울 종로", "놀부", "연표"⟩ stV stV' tcV rfl rfl (by rfl)⟩
